import Mathlib

/-!
Verification development for the LoRaWAN connectivity manager in
`terkin/network/lora.py` (class `LoRaManager`).

The embedding is shallow: each Python method becomes a Lean function.
The radio capability is modelled as a stream `r : Nat → Bool` giving the
result of the n-th call to `self.lora.has_joined()`.  The unbounded inner
`while` loop of `wait_for_lora_join` is modelled with explicit fuel: a
result `none` means the loop did not exit within the given fuel, and a
statement quantified over all fuel values expresses divergence.
Sleep durations are recorded in milliseconds.
-/

namespace Terkin

/-- Byte strings are lists of naturals below 256, as produced by hex decoding. -/
abbrev Bytes := List Nat

/-- Value of one hexadecimal digit, as accepted by `binascii.unhexlify`. -/
def hexVal (c : Char) : Option Nat :=
  if '0' ≤ c ∧ c ≤ '9' then some (c.toNat - '0'.toNat)
  else if 'a' ≤ c ∧ c ≤ 'f' then some (c.toNat - 'a'.toNat + 10)
  else if 'A' ≤ c ∧ c ≤ 'F' then some (c.toNat - 'A'.toNat + 10)
  else none

/-- `binascii.unhexlify` on a character list: consumes pairs of hex digits,
producing one byte per pair; fails on odd length or a non-hex digit. -/
def unhexlifyChars : List Char → Option Bytes
  | [] => some []
  | [_] => none
  | a :: b :: rest =>
    match hexVal a, hexVal b, unhexlifyChars rest with
    | some hi, some lo, some tail => some ((16 * hi + lo) :: tail)
    | _, _, _ => none

/-- `binascii.unhexlify` on a Python string. -/
def unhexlify (s : String) : Option Bytes :=
  unhexlifyChars s.data

/-- The authentication tuple passed to `self.lora.join`: either the
2-tuple `(app_eui, app_key)` or the 3-tuple `(dev_eui, app_eui, app_key)`. -/
inductive JoinAuth
  | auth2 (app_eui app_key : Bytes)
  | auth3 (dev_eui app_eui app_key : Bytes)
deriving DecidableEq, Repr

/-- The `networking.lora.otaa` settings dictionary read by `LoRaManager`.
`device_eui` is optional (`self.otaa_settings.get` returns `None` when the
key is absent). -/
structure OtaaSettings where
  application_eui : String
  application_key : String
  device_eui : Option String
  region : String
  datarate : Nat
deriving DecidableEq, Repr

/-- The raw radio socket capability used after `create_lora_socket`:
`send` returns the byte count accepted by the radio layer, `recvfrom`
returns the received bytes and the port. -/
structure SocketCap where
  send : Bytes → Nat
  recvfrom : Nat → Bytes × Nat

/-- Instance state of `LoRaManager`.  `socket` is the instance attribute
`self.socket` (absent, i.e. `none`, until `create_lora_socket` would bind
it); `lora` records whether `self.lora` has been assigned. -/
structure LMState where
  settings : OtaaSettings
  lora : Option Unit
  lora_joined : Option Bool
  lora_socket : Option Bool
  socket : Option SocketCap

/-- Fresh manager state, as built by `LoRaManager.__init__`: only the
settings are stored; no other instance attribute exists yet. -/
def mkState (s : OtaaSettings) : LMState :=
  ⟨s, none, none, none, none⟩

/-- The authentication tuple computed inside `start_lora_join`:
`app_eui` and `app_key` are unhexlified first; then the 2-tuple variant is
used when `device_eui` is absent and the 3-tuple variant (with the
unhexlified `dev_eui`) when it is present.  `none` models a raised
decoding exception. -/
def joinAuth (s : OtaaSettings) : Option JoinAuth :=
  match unhexlify s.application_eui, unhexlify s.application_key with
  | some app_eui, some app_key =>
    match s.device_eui with
    | none => some (JoinAuth.auth2 app_eui app_key)
    | some d =>
      match unhexlify d with
      | some dev_eui => some (JoinAuth.auth3 dev_eui app_eui app_key)
      | none => none
  | _, _ => none

/-- `start_lora_join`: assigns `self.lora` (the `LoRa(...)` constructor
runs before any unhexlify call) and issues the join request with the
authentication tuple selected by `joinAuth`. -/
def start_lora_join (st : LMState) : LMState × Option JoinAuth :=
  ({ st with lora := some () }, joinAuth st.settings)

/-- The inner `while not self.lora.has_joined():` loop of
`wait_for_lora_join`, started at call index `c` of the has-joined stream
`r`.  Each check consumes one call; the loop exits with the next call
index once a check returns `true`; `none` means the fuel ran out with the
loop still spinning. -/
def whileNotJoined (r : Nat → Bool) : Nat → Nat → Option Nat
  | 0, _ => none
  | fuel + 1, c => if r c then some (c + 1) else whileNotJoined r fuel (c + 1)

/-- The outer `for i in range(0, attempts):` loop of `wait_for_lora_join`:
each iteration runs the inner while loop, threading the call index. -/
def attemptLoop (r : Nat → Bool) (fuel : Nat) : Nat → Nat → Option Nat
  | 0, c => some c
  | n + 1, c => (whileNotJoined r fuel c).bind (fun c2 => attemptLoop r fuel n c2)

/-- `wait_for_lora_join(attempts)` against has-joined stream `r`:
runs the outer loop, then evaluates `self.lora_joined = self.lora.has_joined()`
one final time.  Returns the joined flag together with the total number of
`has_joined` calls performed; `none` means some inner while loop exceeded
the fuel, i.e. the method did not return. -/
def wait_for_lora_join (r : Nat → Bool) (attempts fuel : Nat) : Option (Bool × Nat) :=
  (attemptLoop r fuel attempts 0).map (fun c => (r c, c + 1))

/-- State-passing view of `wait_for_lora_join`: `self.lora_joined` is set
to `None` on entry and to the final has-joined value on normal return. -/
def wait_for_lora_join_st (r : Nat → Bool) (st : LMState) (attempts fuel : Nat) :
    LMState × Option Bool :=
  match wait_for_lora_join r attempts fuel with
  | none => ({ st with lora_joined := none }, none)
  | some (b, _) => ({ st with lora_joined := some b }, some b)

/-- The names bound at module level in `terkin/network/lora.py`:
`import time`, `import binascii`, `from terkin import logging`,
`log = logging.getLogger(__name__)`, and `class LoRaManager`.
(`from network import LoRa` is local to `start_lora_join` and binds no
module-level name.) -/
def moduleNames : List String :=
  ["time", "binascii", "logging", "log", "LoRaManager"]

/-- Python errors raised by the embedded methods. -/
inductive PyError
  | nameError (n : String)
  | attributeError (n : String)
deriving DecidableEq, Repr

/-- Module-level name lookup in `lora.py`. -/
def resolveModuleName (n : String) : Option String :=
  if n ∈ moduleNames then some n else none

/-- `create_lora_socket`: first sets `self.lora_socket = None`; the next
statement evaluates the module-level name `socket`, which is unbound, so a
`NameError` is raised there.  Result: the raised error (if any), the
post state, and the number of radio-capability calls performed.  The
`some` branch of the lookup is unreachable because `"socket"` is not in
`moduleNames`; the remainder of the method body is therefore not modelled. -/
def create_lora_socket (st : LMState) : Option PyError × LMState × Nat :=
  let st1 := { st with lora_socket := none }
  match resolveModuleName "socket" with
  | some _ => (none, st1, 0)
  | none => (some (PyError.nameError "socket"), st1, 0)

/-- `lora_send(payload)`: evaluates `self.socket.send(payload)` (an
`AttributeError` when `self.socket` was never bound), then sleeps twice
for 0.1 s.  Result: the outcome, the number of radio-capability calls,
and the list of sleep durations in milliseconds. -/
def lora_send (st : LMState) (payload : Bytes) :
    Except PyError Nat × Nat × List Nat :=
  match st.socket with
  | none => (Except.error (PyError.attributeError "socket"), 0, [])
  | some sock => (Except.ok (sock.send payload), 1, [100, 100])

/-- `lora_receive()`: evaluates `self.socket.recvfrom(256)` (an
`AttributeError` when `self.socket` was never bound), logs when data
arrived, then sleeps 6 s unconditionally and returns `(rx, port)`. -/
def lora_receive (st : LMState) :
    Except PyError (Bytes × Nat) × Nat × List Nat :=
  match st.socket with
  | none => (Except.error (PyError.attributeError "socket"), 0, [])
  | some sock => (Except.ok (sock.recvfrom 256), 1, [6000])

/-- Observable events of `start()`. -/
inductive StartEv
  | joinRequest (auth : JoinAuth)
  | waitJoin (attempts : Nat) (joined : Bool)
  | createSocketCall
  | logJoinError
deriving DecidableEq, Repr

/-- Whether an event is a wait-for-join invocation. -/
def isWaitJoin : StartEv → Bool
  | StartEv.waitJoin _ _ => true
  | _ => false

/-- `start()`: runs `start_lora_join`, then `wait_for_lora_join(42)`,
sleeps 2.5 s, then calls `create_lora_socket` when `self.lora_joined` is
truthy and logs an error otherwise.  The result is the ordered event
trace; `none` means an exception or the divergence of the wait loop. -/
def start (s : OtaaSettings) (r : Nat → Bool) (fuel : Nat) :
    Option (List StartEv) :=
  match joinAuth s with
  | none => none
  | some auth =>
    match wait_for_lora_join r 42 fuel with
    | none => none
    | some (joined, _) =>
      some ([StartEv.joinRequest auth, StartEv.waitJoin 42 joined] ++
        (if joined then [StartEv.createSocketCall] else [StartEv.logJoinError]))

/-! ### Helper lemmas about the polling loops -/

/-- Against a stream that never reports joined, the inner while loop
spins forever: no fuel is enough. -/
theorem whileNotJoined_never (fuel c : Nat) :
    whileNotJoined (fun _ => false) fuel c = none := by
  induction fuel generalizing c with
  | zero => rfl
  | succ n ih => simp [whileNotJoined, ih]

/-- If an inner while loop exits, it exits because the call just made
returned `true`. -/
theorem whileNotJoined_exit {r : Nat → Bool} {fuel c c2 : Nat}
    (h : whileNotJoined r fuel c = some c2) : 0 < c2 ∧ r (c2 - 1) = true := by
  induction fuel generalizing c with
  | zero => simp [whileNotJoined] at h
  | succ n ih =>
    by_cases hc : r c
    · simp [whileNotJoined, hc] at h
      subst h
      exact ⟨Nat.succ_pos c, by simpa using hc⟩
    · simp [whileNotJoined, hc] at h
      exact ih h

/-- If the outer loop runs at least one iteration and terminates, the
call just before the final call index returned `true`. -/
theorem attemptLoop_exit {r : Nat → Bool} {fuel : Nat} :
    ∀ {n c c2 : Nat}, attemptLoop r fuel (n + 1) c = some c2 →
      0 < c2 ∧ r (c2 - 1) = true := by
  intro n
  induction n with
  | zero =>
    intro c c2 h
    have hdef : attemptLoop r fuel (0 + 1) c =
        (whileNotJoined r fuel c).bind (fun m => attemptLoop r fuel 0 m) := rfl
    rw [hdef] at h
    cases e : whileNotJoined r fuel c with
    | none => rw [e] at h; simp at h
    | some m =>
      rw [e] at h
      have hm : m = c2 := by simpa [attemptLoop] using h
      subst hm
      exact whileNotJoined_exit e
  | succ k ih =>
    intro c c2 h
    have hdef : attemptLoop r fuel (k + 1 + 1) c =
        (whileNotJoined r fuel c).bind (fun m => attemptLoop r fuel (k + 1) m) := rfl
    rw [hdef] at h
    cases e : whileNotJoined r fuel c with
    | none => rw [e] at h; simp at h
    | some m =>
      rw [e] at h
      exact ih h

/-- When the current call already reports joined, the while loop exits at
once. -/
theorem whileNotJoined_true {r : Nat → Bool} {c : Nat} (hc : r c = true)
    {fuel : Nat} (hf : 1 ≤ fuel) : whileNotJoined r fuel c = some (c + 1) := by
  obtain ⟨f, rfl⟩ : ∃ f, fuel = f + 1 :=
    ⟨fuel - 1, (Nat.succ_pred_eq_of_pos hf).symm⟩
  simp [whileNotJoined, hc]

/-- Once every remaining call reports joined, each outer iteration
consumes exactly one call. -/
theorem attemptLoop_all_joined {r : Nat → Bool} {fuel : Nat} (hf : 1 ≤ fuel) :
    ∀ {n c : Nat}, (∀ m, c ≤ m → r m = true) →
      attemptLoop r fuel n c = some (c + n) := by
  intro n
  induction n with
  | zero => intro c _; simp [attemptLoop]
  | succ k ih =>
    intro c hall
    have h1 : whileNotJoined r fuel c = some (c + 1) :=
      whileNotJoined_true (hall c (Nat.le_refl c)) hf
    have h2 : attemptLoop r fuel k (c + 1) = some (c + 1 + k) :=
      ih (fun m hm => hall m (Nat.le_of_succ_le hm))
    simp [attemptLoop, h1, h2]
    omega

/-- For the threshold stream (joined from call `k` on), a while loop
started at or below `k` with fuel at least `k + 1 - c` exits at call
index `k + 1`. -/
theorem whileNotJoined_threshold {k : Nat} :
    ∀ fuel c, c ≤ k → k + 1 ≤ c + fuel →
      whileNotJoined (fun n => decide (k ≤ n)) fuel c = some (k + 1) := by
  intro fuel
  induction fuel with
  | zero => intro c hck hfc; omega
  | succ f ih =>
    intro c hck hfc
    by_cases hkc : k ≤ c
    · have : c = k := Nat.le_antisymm hck hkc
      subst this
      simp [whileNotJoined]
    · have hlt : c < k := Nat.lt_of_not_le hkc
      have hstep : whileNotJoined (fun n => decide (k ≤ n)) (f + 1) c =
          whileNotJoined (fun n => decide (k ≤ n)) f (c + 1) := by
        simp [whileNotJoined, hkc]
      rw [hstep]
      exact ih (c + 1) hlt (by omega)

/-! ### Claim theorems -/

/-- Claim C1 (evidence of the code defect): against a radio whose
`has_joined` always reports `false`, `wait_for_lora_join` with any positive
attempt budget never returns — for every fuel bound the inner while loop
is still spinning — instead of returning `false` after exactly `attempts`
outer iterations as specified. -/
theorem wait_for_lora_join_never_joined_diverges (attempts fuel : Nat) :
    wait_for_lora_join (fun _ => false) (attempts + 1) fuel = none := by
  simp [wait_for_lora_join, attemptLoop, whileNotJoined_never]

/-- Claim C10 counterexample: a terminating call with positive attempt
budget can return `false`.  With a radio that reports joined on the first
call only, `wait_for_lora_join(1)` terminates after two calls and returns
`false`, so the budget-exhausted-false outcome is reachable. -/
theorem wait_for_lora_join_false_outcome_reachable :
    ¬ (∀ (r : Nat → Bool) (attempts fuel k : Nat) (b : Bool),
        1 ≤ attempts → wait_for_lora_join r attempts fuel = some (b, k) → b = true) := by
  intro h
  have := h (fun n => decide (n = 0)) 1 2 2 false (by decide) (by decide)
  simp at this

/-- Claim C10 (amended): if the joined status is monotone — once the radio
reports joined it keeps reporting joined — then a normally terminating
`wait_for_lora_join` with a positive attempt budget returns `true`. -/
theorem wait_for_lora_join_terminating_monotone_joined
    {r : Nat → Bool} (hmono : ∀ i j, i ≤ j → r i = true → r j = true)
    {attempts fuel : Nat} (ha : 1 ≤ attempts) {b : Bool} {k : Nat}
    (h : wait_for_lora_join r attempts fuel = some (b, k)) : b = true := by
  obtain ⟨n, rfl⟩ : ∃ n, attempts = n + 1 :=
    ⟨attempts - 1, (Nat.succ_pred_eq_of_pos ha).symm⟩
  unfold wait_for_lora_join at h
  cases e : attemptLoop r fuel (n + 1) 0 with
  | none => rw [e] at h; simp at h
  | some c =>
    rw [e] at h
    simp at h
    obtain ⟨hb, hk⟩ := h
    obtain ⟨hpos, hprev⟩ := attemptLoop_exit e
    have hrc : r c = true := hmono (c - 1) c (Nat.sub_le c 1) hprev
    rw [← hb, hrc]

/-- Witness for the amended claim C10: a radio that always reports joined
is monotone, `wait_for_lora_join(1)` on it terminates with `(true, 2)`,
and the theorem yields `true = true`. -/
theorem wait_for_lora_join_terminating_monotone_joined_witness :
    (1 : Nat) ≤ 1 ∧ wait_for_lora_join (fun _ => true) 1 1 = some (true, 2) ∧
      (true : Bool) = true :=
  ⟨by decide, by decide,
    @wait_for_lora_join_terminating_monotone_joined (fun _ => true)
      (fun _ _ _ hi => hi) 1 1 (by decide) true 2 (by decide)⟩

/-- Claim C4 counterexample: against a radio that reports joined from the
very first `has_joined` call (so the first joined observation is call 1,
during outer iteration 1 of 2), `wait_for_lora_join(2)` still performs 3
`has_joined` calls in total — it keeps polling after observing joined,
where the claim requires exactly 1 call and no further polling. -/
theorem wait_for_lora_join_polls_after_joined_observed :
    wait_for_lora_join (fun _ => true) 2 1 = some (true, 3) ∧ (3 : Nat) ≠ 1 :=
  ⟨by decide, by decide⟩

/-- Claim C4 (amended): for a radio whose joined status is the threshold
stream joined-from-call-index-`k`-onwards, `wait_for_lora_join` with a
positive attempt budget `a + 1` (and enough inner fuel) returns `true`,
but performs `k + (a + 1) + 1` `has_joined` calls in total: `a + 1`
further calls after the first joined observation (one per remaining outer
iteration plus the final status read), not zero. -/
theorem wait_for_lora_join_threshold_calls (k a fuel : Nat)
    (hfuel : k + 1 ≤ fuel) :
    wait_for_lora_join (fun n => decide (k ≤ n)) (a + 1) fuel =
      some (true, k + (a + 1) + 1) := by
  have h1 : whileNotJoined (fun n => decide (k ≤ n)) fuel 0 = some (k + 1) :=
    whileNotJoined_threshold fuel 0 (Nat.zero_le k) (by omega)
  have h2 : attemptLoop (fun n => decide (k ≤ n)) fuel a (k + 1) =
      some (k + 1 + a) :=
    attemptLoop_all_joined (by omega)
      (fun m hm => by simp only [decide_eq_true_eq]; omega)
  have h3 : attemptLoop (fun n => decide (k ≤ n)) fuel (a + 1) 0 =
      some (k + 1 + a) := by
    have hdef : attemptLoop (fun n => decide (k ≤ n)) fuel (a + 1) 0 =
        (whileNotJoined (fun n => decide (k ≤ n)) fuel 0).bind
          (fun m => attemptLoop (fun n => decide (k ≤ n)) fuel a m) := rfl
    rw [hdef, h1]
    exact h2
  unfold wait_for_lora_join
  rw [h3]
  have hle : k ≤ k + 1 + a := by omega
  simp [hle]
  omega

/-- Witness for the amended claim C4: with threshold 1, budget 2 and fuel
2, the call returns `true` after 4 `has_joined` calls. -/
theorem wait_for_lora_join_threshold_calls_witness :
    1 + 1 ≤ 2 ∧ wait_for_lora_join (fun n => decide (1 ≤ n)) 2 2 =
      some (true, 4) :=
  ⟨by decide, wait_for_lora_join_threshold_calls 1 1 2 (by decide)⟩

/-- Claim C2: whenever `start()` completes normally, its event trace opens
with the join request, followed by the single wait-for-join invocation
with the fixed budget 42, and contains the `create_lora_socket` call
exactly when the joined flag is `true`; on a `false` joined flag it logs
the join failure, creates no socket, and performs no second wait (no
retry). -/
theorem start_structure (s : OtaaSettings) (r : Nat → Bool) (fuel : Nat)
    (evs : List StartEv) (h : start s r fuel = some evs) :
    ∃ auth joined,
      evs.head? = some (StartEv.joinRequest auth) ∧
      evs[1]? = some (StartEv.waitJoin 42 joined) ∧
      (StartEv.createSocketCall ∈ evs ↔ joined = true) ∧
      (joined = false →
        StartEv.logJoinError ∈ evs ∧ StartEv.createSocketCall ∉ evs) ∧
      (evs.filter isWaitJoin).length = 1 := by
  unfold start at h
  cases ha : joinAuth s with
  | none => rw [ha] at h; simp at h
  | some auth =>
    rw [ha] at h
    cases hw : wait_for_lora_join r 42 fuel with
    | none => rw [hw] at h; simp at h
    | some p =>
      obtain ⟨joined, k⟩ := p
      rw [hw] at h
      simp only [Option.some.injEq] at h
      refine ⟨auth, joined, ?_⟩
      subst h
      cases joined <;> simp [isWaitJoin]

/-- Witness for claim C2: a never-failing radio with settings holding
valid hex credentials drives `start()` to the trace
join request, wait with budget 42, socket-creation call. -/
theorem start_structure_witness :
    ∃ auth joined,
      ([StartEv.joinRequest (JoinAuth.auth2 [1] [2]), StartEv.waitJoin 42 true,
        StartEv.createSocketCall] : List StartEv).head? =
          some (StartEv.joinRequest auth) ∧
      ([StartEv.joinRequest (JoinAuth.auth2 [1] [2]), StartEv.waitJoin 42 true,
        StartEv.createSocketCall] : List StartEv)[1]? =
          some (StartEv.waitJoin 42 joined) ∧
      (StartEv.createSocketCall ∈
        ([StartEv.joinRequest (JoinAuth.auth2 [1] [2]), StartEv.waitJoin 42 true,
          StartEv.createSocketCall] : List StartEv) ↔ joined = true) ∧
      (joined = false →
        StartEv.logJoinError ∈
          ([StartEv.joinRequest (JoinAuth.auth2 [1] [2]), StartEv.waitJoin 42 true,
            StartEv.createSocketCall] : List StartEv) ∧
        StartEv.createSocketCall ∉
          ([StartEv.joinRequest (JoinAuth.auth2 [1] [2]), StartEv.waitJoin 42 true,
            StartEv.createSocketCall] : List StartEv)) ∧
      (([StartEv.joinRequest (JoinAuth.auth2 [1] [2]), StartEv.waitJoin 42 true,
        StartEv.createSocketCall] : List StartEv).filter isWaitJoin).length = 1 :=
  start_structure ⟨"01", "02", none, "EU868", 5⟩ (fun _ => true) 1
    [StartEv.joinRequest (JoinAuth.auth2 [1] [2]), StartEv.waitJoin 42 true,
      StartEv.createSocketCall] (by decide)

/-- Claim C3: with decodable application identifiers, `start_lora_join`
issues the 2-tuple join exactly when `device_eui` is absent and the
3-tuple join (with the unhexlified device identifier first) exactly when
it is present; hex `AA11` decodes to the bytes `0xAA 0x11`. -/
theorem start_lora_join_auth_selection (st : LMState) (ae ak : Bytes)
    (he : unhexlify st.settings.application_eui = some ae)
    (hk : unhexlify st.settings.application_key = some ak) :
    (st.settings.device_eui = none →
      (start_lora_join st).2 = some (JoinAuth.auth2 ae ak)) ∧
    (∀ d de, st.settings.device_eui = some d → unhexlify d = some de →
      (start_lora_join st).2 = some (JoinAuth.auth3 de ae ak)) ∧
    unhexlify "AA11" = some [170, 17] := by
  refine ⟨?_, ?_, by decide⟩
  · intro hd
    simp [start_lora_join, joinAuth, he, hk, hd]
  · intro d de hd hde
    simp [start_lora_join, joinAuth, he, hk, hd, hde]

/-- Witness for claim C3 at settings with `device_eui = "AA11"`,
`application_eui = "0102"` and `application_key = "A1B2"`. -/
theorem start_lora_join_auth_selection_witness :
    ((mkState ⟨"0102", "A1B2", some "AA11", "EU868", 5⟩).settings.device_eui =
        none →
      (start_lora_join (mkState ⟨"0102", "A1B2", some "AA11", "EU868", 5⟩)).2 =
        some (JoinAuth.auth2 [1, 2] [161, 178])) ∧
    (∀ d de,
      (mkState ⟨"0102", "A1B2", some "AA11", "EU868", 5⟩).settings.device_eui =
          some d →
      unhexlify d = some de →
      (start_lora_join (mkState ⟨"0102", "A1B2", some "AA11", "EU868", 5⟩)).2 =
        some (JoinAuth.auth3 de [1, 2] [161, 178])) ∧
    unhexlify "AA11" = some [170, 17] :=
  start_lora_join_auth_selection (mkState ⟨"0102", "A1B2", some "AA11", "EU868", 5⟩)
    [1, 2] [161, 178] (by decide) (by decide)

/-- Claim C5: before the socket attribute exists (the manager never
reached the operational state), `lora_send` and `lora_receive` fail with
the `AttributeError` on the unbound `socket` attribute — the concrete
form the not-ready failure takes in this code — and perform zero
radio-capability calls. -/
theorem lora_send_receive_not_ready (st : LMState) (payload : Bytes)
    (h : st.socket = none) :
    (lora_send st payload).1 = Except.error (PyError.attributeError "socket") ∧
    (lora_send st payload).2.1 = 0 ∧
    (lora_receive st).1 = Except.error (PyError.attributeError "socket") ∧
    (lora_receive st).2.1 = 0 := by
  simp [lora_send, lora_receive, h]

/-- Witness for claim C5 on a fresh manager state. -/
theorem lora_send_receive_not_ready_witness :
    (lora_send (mkState ⟨"01", "02", none, "EU868", 5⟩) [1, 2, 3]).1 =
      Except.error (PyError.attributeError "socket") ∧
    (lora_send (mkState ⟨"01", "02", none, "EU868", 5⟩) [1, 2, 3]).2.1 = 0 ∧
    (lora_receive (mkState ⟨"01", "02", none, "EU868", 5⟩)).1 =
      Except.error (PyError.attributeError "socket") ∧
    (lora_receive (mkState ⟨"01", "02", none, "EU868", 5⟩)).2.1 = 0 :=
  lora_send_receive_not_ready (mkState ⟨"01", "02", none, "EU868", 5⟩)
    [1, 2, 3] rfl

/-- Claim C6: with the socket bound, `lora_send` returns as a success the
byte count the radio layer accepted — in particular `0` for the empty
payload when the radio accepts zero bytes — and `lora_receive` returns an
empty payload as a success, not an error, when no data is available. -/
theorem lora_send_receive_ready_success (st : LMState) (sock : SocketCap)
    (h : st.socket = some sock) :
    (∀ payload, (lora_send st payload).1 = Except.ok (sock.send payload)) ∧
    (sock.send [] = 0 → (lora_send st []).1 = Except.ok 0) ∧
    (∀ port, sock.recvfrom 256 = ([], port) →
      (lora_receive st).1 = Except.ok ([], port)) := by
  refine ⟨fun payload => by simp [lora_send, h],
    fun h0 => by simp [lora_send, h, h0],
    fun port hp => by simp [lora_receive, h, hp]⟩

/-- Witness for claim C6 with a radio socket that accepts every byte and
has no pending data. -/
theorem lora_send_receive_ready_success_witness :
    (∀ payload,
      (lora_send { mkState ⟨"01", "02", none, "EU868", 5⟩ with
          socket := some ⟨fun p => p.length, fun _ => ([], 0)⟩ } payload).1 =
        Except.ok ((⟨fun p => p.length, fun _ => ([], 0)⟩ : SocketCap).send payload)) ∧
    ((⟨fun p => p.length, fun _ => ([], 0)⟩ : SocketCap).send [] = 0 →
      (lora_send { mkState ⟨"01", "02", none, "EU868", 5⟩ with
          socket := some ⟨fun p => p.length, fun _ => ([], 0)⟩ } []).1 =
        Except.ok 0) ∧
    (∀ port,
      (⟨fun p => p.length, fun _ => ([], 0)⟩ : SocketCap).recvfrom 256 = ([], port) →
      (lora_receive { mkState ⟨"01", "02", none, "EU868", 5⟩ with
          socket := some ⟨fun p => p.length, fun _ => ([], 0)⟩ }).1 =
        Except.ok ([], port)) :=
  lora_send_receive_ready_success
    { mkState ⟨"01", "02", none, "EU868", 5⟩ with
        socket := some ⟨fun p => p.length, fun _ => ([], 0)⟩ }
    ⟨fun p => p.length, fun _ => ([], 0)⟩ rfl

/-- Claim C7: the post-operation signaling delays are fixed constants:
`lora_send` always sleeps 0.1 s twice and `lora_receive` always sleeps
6 s, for every payload and every received data value. -/
theorem lora_send_receive_fixed_delay (st st2 : LMState)
    (sock sock2 : SocketCap) (h : st.socket = some sock)
    (h2 : st2.socket = some sock2) :
    (∀ payload payload2,
      (lora_send st payload).2.2 = (lora_send st2 payload2).2.2) ∧
    (∀ payload, (lora_send st payload).2.2 = [100, 100]) ∧
    (lora_receive st).2.2 = (lora_receive st2).2.2 ∧
    (lora_receive st).2.2 = [6000] := by
  refine ⟨fun p q => by simp [lora_send, h, h2],
    fun p => by simp [lora_send, h],
    by simp [lora_receive, h, h2],
    by simp [lora_receive, h]⟩

/-- Witness for claim C7 with two states whose sockets accept different
byte counts and return different received data. -/
theorem lora_send_receive_fixed_delay_witness :
    (∀ payload payload2,
      (lora_send { mkState ⟨"01", "02", none, "EU868", 5⟩ with
          socket := some ⟨fun p => p.length, fun _ => ([], 0)⟩ } payload).2.2 =
      (lora_send { mkState ⟨"01", "02", none, "EU868", 5⟩ with
          socket := some ⟨fun _ => 0, fun _ => ([1, 2, 3], 7)⟩ } payload2).2.2) ∧
    (∀ payload,
      (lora_send { mkState ⟨"01", "02", none, "EU868", 5⟩ with
          socket := some ⟨fun p => p.length, fun _ => ([], 0)⟩ } payload).2.2 =
        [100, 100]) ∧
    (lora_receive { mkState ⟨"01", "02", none, "EU868", 5⟩ with
        socket := some ⟨fun p => p.length, fun _ => ([], 0)⟩ }).2.2 =
      (lora_receive { mkState ⟨"01", "02", none, "EU868", 5⟩ with
         socket := some ⟨fun _ => 0, fun _ => ([1, 2, 3], 7)⟩ }).2.2 ∧
    (lora_receive { mkState ⟨"01", "02", none, "EU868", 5⟩ with
        socket := some ⟨fun p => p.length, fun _ => ([], 0)⟩ }).2.2 = [6000] :=
  lora_send_receive_fixed_delay
    { mkState ⟨"01", "02", none, "EU868", 5⟩ with
        socket := some ⟨fun p => p.length, fun _ => ([], 0)⟩ }
    { mkState ⟨"01", "02", none, "EU868", 5⟩ with
        socket := some ⟨fun _ => 0, fun _ => ([1, 2, 3], 7)⟩ }
    ⟨fun p => p.length, fun _ => ([], 0)⟩
    ⟨fun _ => 0, fun _ => ([1, 2, 3], 7)⟩ rfl rfl

/-- Claim C8: `start_lora_join` and `wait_for_lora_join` leave the
settings — application identifier, application key, optional device
identifier, region and datarate — unchanged in every starting state. -/
theorem join_ops_preserve_settings (st : LMState) (r : Nat → Bool)
    (attempts fuel : Nat) :
    (start_lora_join st).1.settings = st.settings ∧
    (wait_for_lora_join_st r st attempts fuel).1.settings = st.settings := by
  constructor
  · rfl
  · unfold wait_for_lora_join_st
    cases wait_for_lora_join r attempts fuel with
    | none => rfl
    | some p => cases p; rfl

/-- Claim C9: the module binds no name `socket` (its imports are `time`,
`binascii` and `logging`), so every call to `create_lora_socket` raises a
`NameError` at the first statement that evaluates `socket.socket`, with
`self.lora_socket` left at `None` and zero radio-capability calls. -/
theorem create_lora_socket_name_error (st : LMState) :
    "socket" ∉ moduleNames ∧
    (create_lora_socket st).1 = some (PyError.nameError "socket") ∧
    (create_lora_socket st).2.1.lora_socket = none ∧
    (create_lora_socket st).2.2 = 0 := by
  exact ⟨by decide, rfl, rfl, rfl⟩

end Terkin
